import Mathlib

/-!
Verification of the data-enrichment pipeline of the VelocityMart warehouse
dashboard (src/app.py, function load_comprehensive_data, lines 82-147).

Modelling conventions:
* A pandas DataFrame cell that may hold NaN (after a left merge with no
  match, or a nullable numeric column) is modelled as an Option.
* Numeric values are exact rationals; weekly pick counts are naturals.
* pandas equality/ordering against NaN: NaN == x is False, NaN != x is
  True, NaN <= x is False.  These semantics are written out explicitly at
  each comparison site below.
* df.sort_values with the default kind has no secondary key; on the small
  inputs evaluated in this file numpy introsort degenerates to insertion
  sort, which is stable, so the sort is modelled as a stable insertion
  sort on the single key pick_count descending.
* Column-presence errors: pandas raises KeyError(column) at the first
  access of a missing column; the loader below threads those checks, in
  source access order, through an Except monad.
-/

namespace VelocityMart

/-- One row of sku_master_converted.xlsx.csv (SKU master table). -/
structure SkuRow where
  sku_id : String
  current_slot : String
  temp_req : String
  category : String
  weight_kg : Option ℚ
  is_fragile : Bool
deriving DecidableEq, Inhabited

/-- One row of warehouse_constraints_converted.xlsx.csv (slot table). -/
structure SlotRow where
  slot_id : String
  temp_zone : String
  max_weight_kg : ℚ
  aisle_id : String
deriving DecidableEq, Inhabited

/-- One row of order_transactions_converted.xlsx.csv; the timestamp is an
abstract tick (only its presence matters to the pipeline). -/
structure OrderRow where
  sku_id : String
  order_timestamp : ℕ
deriving DecidableEq, Inhabited

/-- A row of the enriched output DataFrame returned by
load_comprehensive_data.  Fields produced by the left merge against the
slot table are Options (NaN when the slot is unmatched). -/
structure EnrichedRow where
  sku : SkuRow
  temp_zone : Option String
  max_weight_kg : Option ℚ
  aisle_id : Option String
  aisle : String
  pick_count : ℕ
  cumulative_pct : ℚ
  abc_class : String
  temp_compliant : Bool
  temp_violation : Bool
  weight_compliant : Bool
  weight_violation : Bool
  temp_risk_score : ℕ
  priority_score : ℕ
  zone_number : ℕ
  is_in_prime_zone : Bool
  estimated_value : ℚ
  spoilage_risk : ℚ
deriving DecidableEq, Inhabited

/-- Intermediate row after the slot merge, the aisle extraction and the
pick-count merge (app.py lines 97-110), before the global sort. -/
structure PreRow where
  sku : SkuRow
  temp_zone : Option String
  max_weight_kg : Option ℚ
  aisle_id : Option String
  aisle : String
  pick_count : ℕ
deriving DecidableEq, Inhabited

/-- Distinct elements of a list in first-occurrence order (accumulator
form).  pandas groupby emits its keys sorted, but the key order is
irrelevant here because the groupby result is only consumed through an
exact-key lookup. -/
def groupKeys (acc : List String) : List String → List String
  | [] => acc.reverse
  | k :: ks => if k ∈ acc then groupKeys acc ks else groupKeys (k :: acc) ks

/-- orders.groupby("sku_id").size() (app.py line 108): one (key, count)
pair per distinct sku_id appearing in the order table. -/
def sizeTable (orders : List OrderRow) : List (String × ℕ) :=
  (groupKeys [] (orders.map (fun o => o.sku_id))).map
    (fun k => (k, orders.countP (fun o => o.sku_id == k)))

/-- Left merge of the groupby result onto a key followed by fillna(0)
(app.py lines 109-110): the matched count, or 0 when the key is absent. -/
def lookupPick (t : List (String × ℕ)) (k : String) : ℕ :=
  match t.find? (fun p => p.1 == k) with
  | some p => p.2
  | none => 0

/-- Aisle extraction (app.py line 105):
df.current_slot.str.split("-").str[0]. -/
def aisleOf (current_slot : String) : String :=
  (current_slot.splitOn "-").headD ""

/-- Left merge of one SKU row against the slot table (app.py lines
97-102): every matching slot row produces an output row; no match
produces a single row whose slot-derived columns are NaN. -/
def mergeSlotRow (orders : List OrderRow) (slots : List SlotRow)
    (s : SkuRow) : List PreRow :=
  let mk : Option SlotRow → PreRow := fun m =>
    { sku := s
      temp_zone := m.map (fun w => w.temp_zone)
      max_weight_kg := m.map (fun w => w.max_weight_kg)
      aisle_id := m.map (fun w => w.aisle_id)
      aisle := aisleOf s.current_slot
      pick_count := lookupPick (sizeTable orders) s.sku_id }
  let hits := slots.filter (fun w => w.slot_id == s.current_slot)
  if hits.isEmpty then [mk none] else hits.map (fun w => mk (some w))

/-- The merged-and-counted table before the ABC sort (app.py lines
97-110), in SKU-master order (a pandas left merge preserves left order). -/
def preRows (skus : List SkuRow) (slots : List SlotRow)
    (orders : List OrderRow) : List PreRow :=
  skus.flatMap (mergeSlotRow orders slots)

/-- df.sort_values("pick_count", ascending=False) (app.py line 113),
modelled as a stable sort on the single key pick_count descending: a row
is placed before another exactly when its pick count is at least as
large, so equal counts keep their pre-sort relative order. -/
def sortByPicks (rows : List PreRow) : List PreRow :=
  List.insertionSort (fun a b => b.pick_count ≤ a.pick_count) rows

/-- pandas semantics of (zone != s) when zone may be NaN: NaN != s is
True.  Used by the risk-score masks (app.py lines 130-132). -/
def zoneNe (zone : Option String) (s : String) : Bool :=
  match zone with
  | some z => z != s
  | none => true

/-- Temperature risk score (app.py lines 129-132): exact-string masks on
temp_req with values Frozen/Refrigerated/Ambient; the masks are mutually
exclusive so the sequential .loc writes commute. -/
def tempRiskScore (temp_req : String) (zone : Option String) : ℕ :=
  if temp_req == "Frozen" && zoneNe zone "Frozen" then 3
  else if temp_req == "Refrigerated" && zoneNe zone "Refrigerated" then 2
  else if temp_req == "Ambient" && zoneNe zone "Ambient" then 1
  else 0

/-- Temperature compliance (app.py line 121): raw string equality of
temp_req and the merged temp_zone; a NaN zone compares unequal. -/
def tempCompliant (temp_req : String) (zone : Option String) : Bool :=
  match zone with
  | some z => temp_req == z
  | none => false

/-- Weight compliance (app.py line 125): weight_kg <= max_weight_kg; any
NaN operand makes the pandas comparison False. -/
def weightCompliant (w mw : Option ℚ) : Bool :=
  match w, mw with
  | some a, some b => decide (a ≤ b)
  | _, _ => false

/-- Spoilage risk (app.py lines 141-145): estimated_value (50) when
temp_req is exactly Frozen or Refrigerated and the row is a temperature
violation, else 0. -/
def spoilageRisk (temp_req : String) (violation : Bool) : ℚ :=
  if (temp_req == "Frozen" || temp_req == "Refrigerated") && violation
  then 50 else 0

/-- First maximal digit run of a string, modelling the regex extract of
app.py line 137. -/
def firstDigitRun (s : String) : Option String :=
  let run := (s.data.dropWhile (fun c => !c.isDigit)).takeWhile Char.isDigit
  if run.isEmpty then none else some (String.mk run)

/-- Zone number (app.py line 137): first digit run of the aisle, fillna 99. -/
def zoneNumber (aisle : String) : ℕ :=
  ((firstDigitRun aisle).bind String.toNat?).getD 99

/-- ABC class of one row from its running cumulative percentage (app.py
lines 114-118).  In pandas a zero total makes cumulative_pct NaN (0/0),
every NaN <= threshold test False, hence class C; the total = 0 branch
encodes that. -/
def abcClassOf (total : ℚ) (pct : ℚ) : String :=
  if total = 0 then "C"
  else if pct ≤ 80 then "A"
  else if pct ≤ 95 then "B"
  else "C"

/-- All derived per-row columns (app.py lines 114-145) given the pick
total and the running cumulative pick sum of the row. -/
def finishRow (total : ℚ) (cum : ℚ) (r : PreRow) : EnrichedRow :=
  let pct := cum / total * 100
  let tc := tempCompliant r.sku.temp_req r.temp_zone
  let wc := weightCompliant r.sku.weight_kg r.max_weight_kg
  let sev := tempRiskScore r.sku.temp_req r.temp_zone
  let zn := zoneNumber r.aisle
  { sku := r.sku
    temp_zone := r.temp_zone
    max_weight_kg := r.max_weight_kg
    aisle_id := r.aisle_id
    aisle := r.aisle
    pick_count := r.pick_count
    cumulative_pct := pct
    abc_class := abcClassOf total pct
    temp_compliant := tc
    temp_violation := !tc
    weight_compliant := wc
    weight_violation := !wc
    temp_risk_score := sev
    priority_score := sev * 1000 + r.pick_count
    zone_number := zn
    is_in_prime_zone := decide (zn ≤ 10)
    estimated_value := 50
    spoilage_risk := spoilageRisk r.sku.temp_req (!tc) }

/-- Walk the sorted rows accumulating the cumulative pick sum
(df.pick_count.cumsum(), app.py line 114) and finish every row. -/
def abcPass (total : ℚ) (acc : ℚ) : List PreRow → List EnrichedRow
  | [] => []
  | r :: rs =>
    let c := acc + (r.pick_count : ℚ)
    finishRow total c r :: abcPass total c rs

/-- The enrichment pipeline on already-loaded tables (app.py lines
97-145): slot merge, aisle extraction, pick aggregation, sort, ABC
classification and all derived columns.  The returned row order is the
sorted order, as in the source. -/
def enrich (skus : List SkuRow) (slots : List SlotRow)
    (orders : List OrderRow) : List EnrichedRow :=
  let pre := sortByPicks (preRows skus slots orders)
  let total : ℚ := (pre.map (fun r => (r.pick_count : ℚ))).sum
  abcPass total 0 pre

/-- The error actually raised on a missing column: pandas KeyError, whose
payload is the column name (no source-file name, no dedicated schema
error class exists in app.py). -/
inductive PipeError where
  | keyError (col : String)
deriving DecidableEq

/-- The message carried by the error: a pandas KeyError stringifies to
the missing column name. -/
def errMessage : PipeError → String
  | .keyError c => c

/-- A DataFrame as loaded from csv: its column set plus its typed rows. -/
structure SkuTable where
  cols : List String
  rows : List SkuRow
deriving DecidableEq

/-- Order table with its column set. -/
structure OrderTable where
  cols : List String
  rows : List OrderRow
deriving DecidableEq

/-- Slot table with its column set. -/
structure SlotTable where
  cols : List String
  rows : List SlotRow
deriving DecidableEq

/-- Column access check: pandas raises KeyError(col) when a column is
absent. -/
def requireCol (cols : List String) (c : String) : Except PipeError Unit :=
  if c ∈ cols then .ok () else .error (.keyError c)

/-- load_comprehensive_data (app.py lines 82-147): every column access of
the source, in source order, threaded through Except, then the pure
enrichment.  Access order: orders.order_timestamp (line 92), the
warehouse projection (line 98), the merge keys (lines 99-100), the aisle
extraction key (line 105), orders.sku_id (line 108), the pick merge key
(line 109), temp_req (line 121), weight_kg (line 125). -/
def load_comprehensive_data (sku : SkuTable) (orders : OrderTable)
    (wh : SlotTable) : Except PipeError (List EnrichedRow) := do
  requireCol orders.cols "order_timestamp"
  requireCol wh.cols "slot_id"
  requireCol wh.cols "temp_zone"
  requireCol wh.cols "max_weight_kg"
  requireCol wh.cols "aisle_id"
  requireCol sku.cols "current_slot"
  requireCol orders.cols "sku_id"
  requireCol sku.cols "sku_id"
  requireCol sku.cols "temp_req"
  requireCol sku.cols "weight_kg"
  pure (enrich sku.rows wh.rows orders.rows)

/-- Whether a pipeline run produced an enriched table. -/
def pipelineOk {ε α : Type} : Except ε α → Bool
  | .ok _ => true
  | .error _ => false

deriving instance DecidableEq for Except

/-- Default enriched row, used to read list elements positionally. -/
def arbRow : EnrichedRow := default

/-- Default merged row. -/
def arbPre : PreRow := default

/-- Modelled from the spec: the Normalizer contract (strip leading and
trailing whitespace, convert to a single case).  app.py itself contains
no such normalization; this definition exists to compare the spec wording
against the code.  It is written on the character list so that it
evaluates by kernel reduction. -/
def specNormalize (s : String) : String :=
  String.mk (((s.data.dropWhile Char.isWhitespace).reverse.dropWhile
    Char.isWhitespace).reverse.map Char.toLower)

/-- Code-point order on character lists (kernel-computable). -/
def charListLe : List Char → List Char → Bool
  | [], _ => true
  | _ :: _, [] => false
  | a :: as, b :: bs =>
    if a.toNat < b.toNat then true
    else if b.toNat < a.toNat then false
    else charListLe as bs

/-- Code-point order on strings (kernel-computable). -/
def strLe (a b : String) : Bool := charListLe a.data b.data

/-- Modelled from the spec: the ABC sort order the spec prescribes
(weekly picks descending with a stable tie-break of sku_id ascending).
app.py sorts on pick_count alone; this definition exists to compare the
spec wording against the code. -/
def specAbcSort (rows : List PreRow) : List PreRow :=
  List.insertionSort
    (fun a b => b.pick_count < a.pick_count ∨
      (a.pick_count = b.pick_count ∧ strLe a.sku.sku_id b.sku.sku_id = true))
    rows

/-- Modelled from the spec: ABC classes computed with the spec-prescribed
sku_id tie-break, paired with their sku_id, for comparison against the
classes the code assigns. -/
def specAbcClasses (skus : List SkuRow) (slots : List SlotRow)
    (orders : List OrderRow) : List (String × String) :=
  let pre := specAbcSort (preRows skus slots orders)
  let total : ℚ := (pre.map (fun r => (r.pick_count : ℚ))).sum
  (abcPass total 0 pre).map (fun r => (r.sku.sku_id, r.abc_class))

/-!  Concrete fixtures used by the closed theorems below. -/

/-- Fixture SKU row. -/
def mkSku (i cs tr : String) : SkuRow := ⟨i, cs, tr, "Dairy", some 1, false⟩

/-- Fixture slot row. -/
def mkSlot (i z : String) : SlotRow := ⟨i, z, 10, "A01"⟩

/-- Fixture run: S1 requires Refrigerated but sits in a Frozen slot and
has two order lines; S2 has an unmatched slot, an unrecognized (lower
case) temperature requirement and no order lines. -/
def wSkus : List SkuRow := [mkSku "S1" "SL1" "Refrigerated", mkSku "S2" "SLX" "frozen"]

/-- Fixture slot table for the fixture run. -/
def wSlots : List SlotRow := [mkSlot "SL1" "Frozen"]

/-- Fixture order table for the fixture run. -/
def wOrders : List OrderRow := [⟨"S1", 0⟩, ⟨"S1", 5⟩]

/-- Full column set of the SKU master file. -/
def okSkuCols : List String :=
  ["sku_id", "current_slot", "temp_req", "category", "weight_kg", "is_fragile"]

/-- Full column set of the order file. -/
def okOrderCols : List String := ["sku_id", "order_timestamp"]

/-- Full column set of the warehouse file. -/
def okSlotCols : List String := ["slot_id", "temp_zone", "max_weight_kg", "aisle_id"]

/-- A pair of rows for which severity and pick volume pull the priority
score in opposite directions: A has severity 1 and no picks, B is
compliant with 1001 picks. -/
def cx2skus : List SkuRow := [mkSku "A" "SL1" "Ambient", mkSku "B" "SL2" "Frozen"]

/-- Slot table of the severity-versus-picks run. -/
def cx2slots : List SlotRow := [mkSlot "SL1" "Frozen", mkSlot "SL2" "Frozen"]

/-- 1001 order lines for B. -/
def cx2orders : List OrderRow := List.replicate 1001 ⟨"B", 0⟩

/-- Output of the severity-versus-picks run. -/
def cx2out : List EnrichedRow := enrich cx2skus cx2slots cx2orders

/-- Two SKUs with one pick each, ids in descending order, so that the
classification depends on how the pick tie is broken. -/
def c5skus : List SkuRow := [mkSku "Z" "SL1" "Ambient", mkSku "A" "SL1" "Ambient"]

/-- Slot table of the tie-break run. -/
def c5slots : List SlotRow := [mkSlot "SL1" "Ambient"]

/-- One order line per SKU of the tie-break run. -/
def c5orders : List OrderRow := [⟨"Z", 0⟩, ⟨"A", 1⟩]

/-- Fixture tables with their full column sets. -/
def wSkuTable : SkuTable := ⟨okSkuCols, wSkus⟩

/-- Fixture order table with its full column set. -/
def wOrderTable : OrderTable := ⟨okOrderCols, wOrders⟩

/-- Fixture slot table with its full column set. -/
def wSlotTable : SlotTable := ⟨okSlotCols, wSlots⟩

/-- A warehouse file missing the temp_zone column. -/
def whNoZone : SlotTable := ⟨["slot_id", "max_weight_kg", "aisle_id"], []⟩

/-!  General-purpose helper lemmas. -/

theorem headD_mem {α : Type} {l : List α} {d : α} (h : l ≠ []) :
    l.headD d ∈ l := by
  cases l with
  | nil => exact absurd rfl h
  | cons a t => exact List.mem_cons_self a t

theorem getD_mem {α : Type} {l : List α} {d : α} {i : ℕ}
    (h : i < l.length) : l.getD i d ∈ l := by
  induction l generalizing i with
  | nil => simp at h
  | cons a t ih =>
    cases i with
    | zero => simp
    | succ n =>
      simp only [List.getD_cons_succ]
      exact List.mem_cons_of_mem _ (ih (by simpa using h))

theorem countP_replicate {α : Type} (p : α → Bool) (n : ℕ) (a : α) :
    (List.replicate n a).countP p = if p a then n else 0 := by
  induction n with
  | zero => simp
  | succ m ih =>
    simp only [List.replicate_succ, List.countP_cons, ih]
    by_cases h : p a <;> simp [h]

/-!  Structure of the projection and aggregation steps. -/

theorem mem_groupKeys {k : String} :
    ∀ (l acc : List String), k ∈ groupKeys acc l ↔ k ∈ acc ∨ k ∈ l := by
  intro l
  induction l with
  | nil => intro acc; simp [groupKeys]
  | cons x xs ih =>
    intro acc
    by_cases hx : x ∈ acc
    · rw [groupKeys, if_pos hx, ih]
      constructor
      · rintro (h | h)
        · exact Or.inl h
        · exact Or.inr (List.mem_cons_of_mem _ h)
      · rintro (h | h)
        · exact Or.inl h
        · rcases List.mem_cons.mp h with rfl | h
          · exact Or.inl hx
          · exact Or.inr h
    · rw [groupKeys, if_neg hx, ih]
      simp only [List.mem_cons]
      tauto

theorem find?_keyTable (c : String → ℕ) (k : String) :
    ∀ l : List String,
      (l.map (fun x => (x, c x))).find? (fun p => p.1 == k)
        = if k ∈ l then some (k, c k) else none := by
  intro l
  induction l with
  | nil => simp
  | cons x xs ih =>
    by_cases hx : x = k
    · subst hx
      simp [List.find?_cons]
    · have hb : (x == k) = false := beq_false_of_ne hx
      simp only [List.map_cons, List.find?_cons, hb, ih, List.mem_cons]
      by_cases hk : k ∈ xs <;> simp [hk, hx, Ne.symm hx]

/-- The groupby-size left merge followed by fillna(0) equals the plain
per-key row count of the order table. -/
theorem lookupPick_sizeTable (orders : List OrderRow) (k : String) :
    lookupPick (sizeTable orders) k
      = orders.countP (fun o => o.sku_id == k) := by
  unfold lookupPick sizeTable
  rw [find?_keyTable]
  by_cases hk : k ∈ groupKeys [] (orders.map (fun o => o.sku_id))
  · simp [hk]
  · rw [if_neg hk]
    have hnot : k ∉ orders.map (fun o => o.sku_id) := by
      intro hmem
      exact hk ((mem_groupKeys _ _).mpr (Or.inr hmem))
    have : orders.countP (fun o => o.sku_id == k) = 0 := by
      rw [List.countP_eq_zero]
      intro o ho hbeq
      exact hnot (List.mem_map.mpr ⟨o, ho, beq_iff_eq.mp hbeq⟩)
    simp [this]

/-- Every row produced by the slot merge for one SKU: it carries that
SKU, its pick count is the merged order count, and its slot-derived
columns are either all NaN with no slot matching, or come from a slot row
whose slot_id matches. -/
theorem mem_mergeSlotRow {orders : List OrderRow} {slots : List SlotRow}
    {s : SkuRow} {p : PreRow} (h : p ∈ mergeSlotRow orders slots s) :
    p.sku = s ∧ p.pick_count = lookupPick (sizeTable orders) s.sku_id ∧
      ((p.temp_zone = none ∧ p.max_weight_kg = none ∧
          ∀ w ∈ slots, w.slot_id ≠ s.current_slot) ∨
        (∃ w ∈ slots, w.slot_id = s.current_slot ∧
          p.temp_zone = some w.temp_zone ∧
          p.max_weight_kg = some w.max_weight_kg)) := by
  unfold mergeSlotRow at h
  by_cases he : (slots.filter (fun w => w.slot_id == s.current_slot)).isEmpty
  · rw [if_pos he] at h
    simp only [List.mem_singleton] at h
    subst h
    refine ⟨rfl, rfl, Or.inl ⟨rfl, rfl, ?_⟩⟩
    intro w hw hwid
    have hfil : slots.filter (fun w => w.slot_id == s.current_slot) = [] :=
      List.isEmpty_iff.mp he
    have : w ∈ slots.filter (fun w => w.slot_id == s.current_slot) :=
      List.mem_filter.mpr ⟨hw, beq_iff_eq.mpr hwid⟩
    rw [hfil] at this
    exact List.not_mem_nil w this
  · rw [if_neg he] at h
    obtain ⟨w, hw, hp⟩ := List.mem_map.mp h
    obtain ⟨hws, hwid⟩ := List.mem_filter.mp hw
    subst hp
    exact ⟨rfl, rfl, Or.inr ⟨w, hws, beq_iff_eq.mp hwid, rfl, rfl⟩⟩

theorem mem_preRows {skus : List SkuRow} {slots : List SlotRow}
    {orders : List OrderRow} {p : PreRow}
    (h : p ∈ preRows skus slots orders) :
    ∃ s ∈ skus, p ∈ mergeSlotRow orders slots s :=
  List.mem_flatMap.mp h

/-!  Structure of the classification pass. -/

theorem mem_abcPass {total acc : ℚ} {l : List PreRow} {r : EnrichedRow}
    (h : r ∈ abcPass total acc l) :
    ∃ p ∈ l, ∃ c, r = finishRow total c p := by
  induction l generalizing acc with
  | nil => simp [abcPass] at h
  | cons x xs ih =>
    rw [abcPass] at h
    rcases List.mem_cons.mp h with h | h
    · exact ⟨x, List.mem_cons_self x xs, _, h⟩
    · obtain ⟨p, hp, c, hc⟩ := ih h
      exact ⟨p, List.mem_cons_of_mem _ hp, c, hc⟩

theorem length_abcPass (total : ℚ) :
    ∀ (l : List PreRow) (acc : ℚ), (abcPass total acc l).length = l.length := by
  intro l
  induction l with
  | nil => intro acc; rfl
  | cons x xs ih => intro acc; simp [abcPass, ih]

/-- Projections of a finished row that do not depend on the cumulative
accumulator. -/
theorem finishRow_sku (total c : ℚ) (p : PreRow) :
    (finishRow total c p).sku = p.sku := rfl

theorem finishRow_temp_zone (total c : ℚ) (p : PreRow) :
    (finishRow total c p).temp_zone = p.temp_zone := rfl

theorem finishRow_max_weight (total c : ℚ) (p : PreRow) :
    (finishRow total c p).max_weight_kg = p.max_weight_kg := rfl

theorem finishRow_pick (total c : ℚ) (p : PreRow) :
    (finishRow total c p).pick_count = p.pick_count := rfl

theorem finishRow_temp_compliant (total c : ℚ) (p : PreRow) :
    (finishRow total c p).temp_compliant
      = tempCompliant p.sku.temp_req p.temp_zone := rfl

theorem finishRow_weight_compliant (total c : ℚ) (p : PreRow) :
    (finishRow total c p).weight_compliant
      = weightCompliant p.sku.weight_kg p.max_weight_kg := rfl

theorem finishRow_risk (total c : ℚ) (p : PreRow) :
    (finishRow total c p).temp_risk_score
      = tempRiskScore p.sku.temp_req p.temp_zone := rfl

theorem finishRow_priority (total c : ℚ) (p : PreRow) :
    (finishRow total c p).priority_score
      = tempRiskScore p.sku.temp_req p.temp_zone * 1000 + p.pick_count := rfl

theorem finishRow_abc (total c : ℚ) (p : PreRow) :
    (finishRow total c p).abc_class = abcClassOf total (c / total * 100) := rfl

/-- Every row of the enriched output is a finished copy of some merged
row of some input SKU row. -/
theorem mem_enrich {skus : List SkuRow} {slots : List SlotRow}
    {orders : List OrderRow} {r : EnrichedRow}
    (h : r ∈ enrich skus slots orders) :
    ∃ s ∈ skus, ∃ p ∈ mergeSlotRow orders slots s,
      ∃ total c, r = finishRow total c p := by
  unfold enrich at h
  obtain ⟨p, hp, c, hc⟩ := mem_abcPass h
  have hp2 : p ∈ preRows skus slots orders := by
    unfold sortByPicks at hp
    exact (List.mem_insertionSort
      (fun a b => b.pick_count ≤ a.pick_count)).mp hp
  obtain ⟨s, hs, hps⟩ := mem_preRows hp2
  exact ⟨s, hs, p, hps, _, c, hc⟩

/-- Every output row satisfies priority = risk * 1000 + picks. -/
theorem priority_eq {skus : List SkuRow} {slots : List SlotRow}
    {orders : List OrderRow} {r : EnrichedRow}
    (h : r ∈ enrich skus slots orders) :
    r.priority_score = r.temp_risk_score * 1000 + r.pick_count := by
  obtain ⟨s, hs, p, hp, total, c, rfl⟩ := mem_enrich h
  rw [finishRow_priority, finishRow_risk, finishRow_pick]

theorem abcPass_map_pick (total : ℚ) :
    ∀ (l : List PreRow) (acc : ℚ),
      (abcPass total acc l).map (fun r => r.pick_count)
        = l.map (fun p => p.pick_count) := by
  intro l
  induction l with
  | nil => intro acc; rfl
  | cons x xs ih =>
    intro acc
    rw [abcPass, List.map_cons, List.map_cons, finishRow_pick, ih]

theorem abcPass_take_map_pick (total : ℚ) :
    ∀ (l : List PreRow) (acc : ℚ) (n : ℕ),
      ((abcPass total acc l).take n).map (fun r => r.pick_count)
        = (l.take n).map (fun p => p.pick_count) := by
  intro l
  induction l with
  | nil => intro acc n; simp [abcPass]
  | cons x xs ih =>
    intro acc n
    cases n with
    | zero => rfl
    | succ m =>
      rw [abcPass, List.take_succ_cons, List.take_succ_cons, List.map_cons,
        List.map_cons, finishRow_pick, ih]

theorem abcPass_getD (total : ℚ) :
    ∀ (l : List PreRow) (acc : ℚ) (i : ℕ), i < l.length →
      (abcPass total acc l).getD i arbRow
        = finishRow total
            (acc + ((l.take (i + 1)).map (fun p => (p.pick_count : ℚ))).sum)
            (l.getD i arbPre) := by
  intro l
  induction l with
  | nil => intro acc i h; simp at h
  | cons x xs ih =>
    intro acc i h
    cases i with
    | zero => simp [abcPass, List.take_succ_cons]
    | succ m =>
      rw [abcPass]
      simp only [List.getD_cons_succ, List.take_succ_cons, List.map_cons,
        List.sum_cons]
      rw [ih _ m (by simpa using h), add_assoc]

theorem abcPass_pairwise (total : ℚ) (R : ℕ → ℕ → Prop) :
    ∀ (l : List PreRow) (acc : ℚ),
      l.Pairwise (fun a b => R a.pick_count b.pick_count) →
      (abcPass total acc l).Pairwise
        (fun a b => R a.pick_count b.pick_count) := by
  intro l
  induction l with
  | nil => intro acc _; exact List.Pairwise.nil
  | cons x xs ih =>
    intro acc h
    rcases List.pairwise_cons.mp h with ⟨hx, hxs⟩
    rw [abcPass]
    refine List.pairwise_cons.mpr ⟨?_, ih _ hxs⟩
    intro b hb
    obtain ⟨p, hp, c, rfl⟩ := mem_abcPass hb
    rw [finishRow_pick, finishRow_pick]
    exact hx p hp

/-- With distinct slot ids a left merge emits exactly one row per SKU. -/
theorem filter_slot_len_le_one (k : String) {slots : List SlotRow}
    (h : (slots.map (fun w => w.slot_id)).Nodup) :
    (slots.filter (fun w => w.slot_id == k)).length ≤ 1 := by
  induction slots with
  | nil => simp
  | cons a t ih =>
    rw [List.map_cons, List.nodup_cons] at h
    by_cases ha : (a.slot_id == k) = true
    · have hak : a.slot_id = k := beq_iff_eq.mp ha
      have ht : t.filter (fun w => w.slot_id == k) = [] := by
        rw [List.filter_eq_nil_iff]
        intro w hw hwk
        exact h.1 (List.mem_map.mpr ⟨w, hw, by rw [beq_iff_eq.mp hwk, hak]⟩)
      simp [List.filter_cons, ha, ht]
    · simp only [List.filter_cons, if_neg ha]
      exact ih h.2

theorem length_mergeSlotRow (orders : List OrderRow) (s : SkuRow)
    {slots : List SlotRow} (h : (slots.map (fun w => w.slot_id)).Nodup) :
    (mergeSlotRow orders slots s).length = 1 := by
  unfold mergeSlotRow
  by_cases he : (slots.filter (fun w => w.slot_id == s.current_slot)).isEmpty
  · rw [if_pos he]; rfl
  · rw [if_neg he, List.length_map]
    have h1 := filter_slot_len_le_one s.current_slot h
    have h0 : (slots.filter (fun w => w.slot_id == s.current_slot)).length ≠ 0 := by
      intro h0
      exact he (by
        simpa [List.isEmpty_iff] using List.length_eq_zero.mp h0)
    omega

theorem length_preRows {skus : List SkuRow} {slots : List SlotRow}
    {orders : List OrderRow}
    (h : (slots.map (fun w => w.slot_id)).Nodup) :
    (preRows skus slots orders).length = skus.length := by
  induction skus with
  | nil => rfl
  | cons s t ih =>
    have hm := length_mergeSlotRow orders s h
    simp only [preRows, List.flatMap_cons, List.length_append] at ih ⊢
    rw [hm, ih, List.length_cons]
    omega

/-- A successful load implies every required column was present. -/
theorem load_ok_columns {sku : SkuTable} {orders : OrderTable}
    {wh : SlotTable}
    (h : pipelineOk (load_comprehensive_data sku orders wh) = true) :
    "order_timestamp" ∈ orders.cols ∧ "slot_id" ∈ wh.cols ∧
      "temp_zone" ∈ wh.cols ∧ "max_weight_kg" ∈ wh.cols ∧
      "aisle_id" ∈ wh.cols ∧ "current_slot" ∈ sku.cols ∧
      "sku_id" ∈ orders.cols ∧ "sku_id" ∈ sku.cols ∧
      "temp_req" ∈ sku.cols ∧ "weight_kg" ∈ sku.cols := by
  by_cases h1 : "order_timestamp" ∈ orders.cols
  · by_cases h2 : "slot_id" ∈ wh.cols
    · by_cases h3 : "temp_zone" ∈ wh.cols
      · by_cases h4 : "max_weight_kg" ∈ wh.cols
        · by_cases h5 : "aisle_id" ∈ wh.cols
          · by_cases h6 : "current_slot" ∈ sku.cols
            · by_cases h7 : "sku_id" ∈ orders.cols
              · by_cases h8 : "sku_id" ∈ sku.cols
                · by_cases h9 : "temp_req" ∈ sku.cols
                  · by_cases h10 : "weight_kg" ∈ sku.cols
                    · exact ⟨h1, h2, h3, h4, h5, h6, h7, h8, h9, h10⟩
                    · simp [load_comprehensive_data, requireCol, pipelineOk,
                        Bind.bind, Except.bind, Functor.map, Except.map,
                        h1, h2, h3, h4, h5, h6, h7, h8, h9, h10] at h
                  · simp [load_comprehensive_data, requireCol, pipelineOk,
                      Bind.bind, Except.bind, Functor.map, Except.map,
                      h1, h2, h3, h4, h5, h6, h7, h8, h9] at h
                · simp [load_comprehensive_data, requireCol, pipelineOk,
                    Bind.bind, Except.bind, Functor.map, Except.map,
                    h1, h2, h3, h4, h5, h6, h7, h8] at h
              · simp [load_comprehensive_data, requireCol, pipelineOk,
                  Bind.bind, Except.bind, Functor.map, Except.map,
                  h1, h2, h3, h4, h5, h6, h7] at h
            · simp [load_comprehensive_data, requireCol, pipelineOk,
                Bind.bind, Except.bind, Functor.map, Except.map,
                h1, h2, h3, h4, h5, h6] at h
          · simp [load_comprehensive_data, requireCol, pipelineOk,
              Bind.bind, Except.bind, Functor.map, Except.map,
              h1, h2, h3, h4, h5] at h
        · simp [load_comprehensive_data, requireCol, pipelineOk,
            Bind.bind, Except.bind, Functor.map, Except.map,
            h1, h2, h3, h4] at h
      · simp [load_comprehensive_data, requireCol, pipelineOk,
          Bind.bind, Except.bind, Functor.map, Except.map, h1, h2, h3] at h
    · simp [load_comprehensive_data, requireCol, pipelineOk,
        Bind.bind, Except.bind, Functor.map, Except.map, h1, h2] at h
  · simp [load_comprehensive_data, requireCol, pipelineOk,
      Bind.bind, Except.bind, Functor.map, Except.map, h1] at h

/-!  The claims. -/

/-- C1 (claim as stated is false; counterexample): two runs whose inputs
differ only by a trailing whitespace in the required temperature
normalize to the same canonical value, yet produce different
temp_compliant values, because app.py line 121 compares the raw
strings. -/
theorem C1_counterexample :
    specNormalize "Frozen " = specNormalize "Frozen" ∧
    (enrich [mkSku "S1" "SL1" "Frozen"] [mkSlot "SL1" "Frozen"] []).map
      (fun r => r.temp_compliant) = [true] ∧
    (enrich [mkSku "S1" "SL1" "Frozen "] [mkSlot "SL1" "Frozen"] []).map
      (fun r => r.temp_compliant) = [false] :=
  ⟨by decide, by decide, by decide⟩

/-- C1 (amended): temp_compliant is the raw, un-normalized string
comparison: it is true exactly when the merged zone is present and is
character-for-character equal to temp_req, so whitespace or case
differences in either input field flip the flag. -/
theorem C1_amended : ∀ (skus : List SkuRow) (slots : List SlotRow)
    (orders : List OrderRow), ∀ r ∈ enrich skus slots orders,
    (r.temp_compliant = true ↔ r.temp_zone = some r.sku.temp_req) := by
  intro skus slots orders r h
  obtain ⟨s, hs, p, hp, total, c, rfl⟩ := mem_enrich h
  rw [finishRow_temp_compliant, finishRow_temp_zone, finishRow_sku]
  cases hz : p.temp_zone with
  | none =>
    simp only [tempCompliant]
    simp
  | some z =>
    simp only [tempCompliant, Option.some.injEq, beq_iff_eq]
    exact eq_comm

/-- C1 witness: the amended equivalence on the first row of the fixture
run. -/
theorem C1_witness :
    (((enrich wSkus wSlots wOrders).headD arbRow).temp_compliant = true ↔
      ((enrich wSkus wSlots wOrders).headD arbRow).temp_zone
        = some ((enrich wSkus wSlots wOrders).headD arbRow).sku.temp_req) :=
  C1_amended wSkus wSlots wOrders _ (headD_mem (by decide))

set_option maxRecDepth 100000 in
/-- C2 (claim as stated is false; counterexample): in the run cx2out the
severity-1 row scores 1000 while a compliant row with 1001 weekly picks
scores 1001, so a strictly higher temperature severity does not imply a
strictly higher priority_score. -/
theorem C2_counterexample :
    ¬ (∀ a ∈ cx2out, ∀ b ∈ cx2out,
        a.temp_risk_score > b.temp_risk_score →
          a.priority_score > b.priority_score) := by decide

/-- C2 (amended): severity dominates the priority ordering only up to
the 1000-point band encoded in priority = severity * 1000 + picks: if
severity(A) > severity(B) and B's pick count is less than A's plus 1000,
then priority(A) > priority(B). -/
theorem C2_amended : ∀ (skus : List SkuRow) (slots : List SlotRow)
    (orders : List OrderRow), ∀ a ∈ enrich skus slots orders,
    ∀ b ∈ enrich skus slots orders,
    a.temp_risk_score > b.temp_risk_score →
    b.pick_count < a.pick_count + 1000 →
    a.priority_score > b.priority_score := by
  intro skus slots orders a ha b hb hsev hpick
  rw [priority_eq ha, priority_eq hb]
  omega

/-- C2 witness: amended dominance on the fixture run (severity 2 row
versus severity 0 row). -/
theorem C2_witness :
    ((enrich wSkus wSlots wOrders).headD arbRow).priority_score >
      ((enrich wSkus wSlots wOrders).getD 1 arbRow).priority_score :=
  C2_amended wSkus wSlots wOrders _ (headD_mem (by decide)) _
    (getD_mem (by decide)) (by decide) (by decide)

/-- C3 (claim as stated is false; counterexample): a SKU whose
current_slot matches no slot row gets a missing (NaN, modelled none)
current zone, not the sentinel string unknown. -/
theorem C3_counterexample :
    (enrich [mkSku "S2" "SLOTX" "Frozen"] [] []).map (fun r => r.temp_zone)
      = [none] ∧
    (enrich [mkSku "S2" "SLOTX" "Frozen"] [] []).map (fun r => r.temp_zone)
      ≠ [some "unknown"] := by decide

/-- C3 (amended): the current zone of every output row is either the
temp_zone of a slot matching the row's current_slot, or missing
(NaN/none, never the string unknown) when no slot matches, in which case
temp_compliant is false. -/
theorem C3_amended : ∀ (skus : List SkuRow) (slots : List SlotRow)
    (orders : List OrderRow), ∀ r ∈ enrich skus slots orders,
    (∃ w ∈ slots, w.slot_id = r.sku.current_slot ∧
      r.temp_zone = some w.temp_zone) ∨
    (r.temp_zone = none ∧ (∀ w ∈ slots, w.slot_id ≠ r.sku.current_slot) ∧
      r.temp_compliant = false) := by
  intro skus slots orders r h
  obtain ⟨s, hs, p, hp, total, c, rfl⟩ := mem_enrich h
  obtain ⟨hsku, hpick, hcase⟩ := mem_mergeSlotRow hp
  rw [finishRow_temp_zone, finishRow_sku, finishRow_temp_compliant, hsku]
  rcases hcase with ⟨hz, hmw, hnone⟩ | ⟨w, hw, hid, hz, hmw⟩
  · exact Or.inr ⟨hz, hnone, by rw [hz]; rfl⟩
  · exact Or.inl ⟨w, hw, hid, hz⟩

/-- C3 witness: the amended disjunction on the unmatched-slot row of the
fixture run. -/
theorem C3_witness :
    (∃ w ∈ wSlots,
      w.slot_id
          = ((enrich wSkus wSlots wOrders).getD 1 arbRow).sku.current_slot ∧
      ((enrich wSkus wSlots wOrders).getD 1 arbRow).temp_zone
          = some w.temp_zone) ∨
    (((enrich wSkus wSlots wOrders).getD 1 arbRow).temp_zone = none ∧
      (∀ w ∈ wSlots,
        w.slot_id
          ≠ ((enrich wSkus wSlots wOrders).getD 1 arbRow).sku.current_slot) ∧
      ((enrich wSkus wSlots wOrders).getD 1 arbRow).temp_compliant = false) :=
  C3_amended wSkus wSlots wOrders _ (getD_mem (by decide))

/-- C4 (confirmed): with distinct slot ids the slot join neither drops
nor duplicates SKU rows: the enriched output has exactly one row per
SKU-master row. -/
theorem C4_join_totality : ∀ (skus : List SkuRow) (slots : List SlotRow)
    (orders : List OrderRow),
    (slots.map (fun w => w.slot_id)).Nodup →
    (enrich skus slots orders).length = skus.length := by
  intro skus slots orders h
  unfold enrich
  rw [length_abcPass]
  unfold sortByPicks
  rw [List.length_insertionSort]
  exact length_preRows h

/-- C4 witness: row counts agree on the fixture run. -/
theorem C4_witness : (enrich wSkus wSlots wOrders).length = wSkus.length :=
  C4_join_totality wSkus wSlots wOrders (by decide)

/-- C5 (claim as stated is false; counterexample): on two SKUs with one
pick each and ids Z before A, the spec-prescribed sort (picks descending,
sku_id ascending tie-break) assigns class A to SKU A, but app.py line 113
sorts on pick_count alone, so the tie keeps input order and class A goes
to SKU Z instead. -/
theorem C5_counterexample :
    specAbcClasses c5skus c5slots c5orders = [("A", "A"), ("Z", "C")] ∧
    (enrich c5skus c5slots c5orders).map
      (fun r => (r.sku.sku_id, r.abc_class)) = [("Z", "A"), ("A", "C")] := by
  have hz : lookupPick (sizeTable [({sku_id := "Z", order_timestamp := 0} :
      OrderRow), {sku_id := "A", order_timestamp := 1}]) "Z" = 1 := by decide
  have ha : lookupPick (sizeTable [({sku_id := "Z", order_timestamp := 0} :
      OrderRow), {sku_id := "A", order_timestamp := 1}]) "A" = 1 := by decide
  have hza : strLe "Z" "A" = false := by decide
  constructor
  · simp only [specAbcClasses, specAbcSort, preRows, mergeSlotRow, c5skus,
      c5slots, c5orders, mkSku, mkSlot, List.flatMap_cons, List.flatMap_nil,
      List.filter_cons, List.filter_nil, List.append_nil, hz, ha]
    norm_num [hz, ha, hza, List.insertionSort, List.orderedInsert, abcPass,
      finishRow, abcClassOf]
  · simp only [enrich, preRows, mergeSlotRow, c5skus, c5slots, c5orders,
      mkSku, mkSlot, List.flatMap_cons, List.flatMap_nil, List.filter_cons,
      List.filter_nil, List.append_nil, hz, ha]
    norm_num [hz, ha, sortByPicks, List.insertionSort, List.orderedInsert,
      abcPass, finishRow, abcClassOf]

/-- C5 (amended): the classification sorts by weekly picks descending
with no sku_id tie-break (equal counts keep their pre-sort order, so the
result is not the sku_id-ascending order the spec prescribes); on the
sorted output each row's class is determined by the running cumulative
share with the 80 and 95 percent thresholds. -/
theorem C5_amended : ∀ (skus : List SkuRow) (slots : List SlotRow)
    (orders : List OrderRow),
    List.Pairwise (fun a b : EnrichedRow => b.pick_count ≤ a.pick_count)
      (enrich skus slots orders) ∧
    ∀ i, i < (enrich skus slots orders).length →
      ((enrich skus slots orders).getD i arbRow).abc_class
        = abcClassOf
            (((enrich skus slots orders).map
                (fun r => (r.pick_count : ℚ))).sum)
            ((((enrich skus slots orders).take (i + 1)).map
                (fun r => (r.pick_count : ℚ))).sum
              / (((enrich skus slots orders).map
                  (fun r => (r.pick_count : ℚ))).sum) * 100) := by
  intro skus slots orders
  constructor
  · letI rel : PreRow → PreRow → Prop := fun a b => b.pick_count ≤ a.pick_count
    haveI : IsTotal PreRow rel := ⟨fun a b => le_total b.pick_count a.pick_count⟩
    haveI : IsTrans PreRow rel := ⟨fun a b c hab hbc => le_trans hbc hab⟩
    have hsorted := List.sorted_insertionSort rel (preRows skus slots orders)
    simp only [enrich]
    exact abcPass_pairwise _ (fun x y => y ≤ x) _ _ hsorted
  · intro i hi
    simp only [enrich] at hi ⊢
    set pre := sortByPicks (preRows skus slots orders) with hpre
    set t : ℚ := (pre.map (fun r => (r.pick_count : ℚ))).sum with ht
    have hlen : i < pre.length := by rwa [length_abcPass] at hi
    have hmap : (abcPass t 0 pre).map (fun r => (r.pick_count : ℚ))
        = pre.map (fun p => (p.pick_count : ℚ)) := by
      have h1 := abcPass_map_pick t pre 0
      have e1 : (abcPass t 0 pre).map (fun r => (r.pick_count : ℚ))
          = ((abcPass t 0 pre).map (fun r => r.pick_count)).map
              (fun n : ℕ => (n : ℚ)) := by
        rw [List.map_map]; rfl
      have e2 : (pre.map (fun p => p.pick_count)).map (fun n : ℕ => (n : ℚ))
          = pre.map (fun p => (p.pick_count : ℚ)) := by
        rw [List.map_map]; rfl
      rw [e1, h1, e2]
    have htake : ((abcPass t 0 pre).take (i + 1)).map
          (fun r => (r.pick_count : ℚ))
        = (pre.take (i + 1)).map (fun p => (p.pick_count : ℚ)) := by
      have h1 := abcPass_take_map_pick t pre 0 (i + 1)
      have e1 : ((abcPass t 0 pre).take (i + 1)).map
            (fun r => (r.pick_count : ℚ))
          = (((abcPass t 0 pre).take (i + 1)).map
              (fun r => r.pick_count)).map (fun n : ℕ => (n : ℚ)) := by
        rw [List.map_map]; rfl
      have e2 : ((pre.take (i + 1)).map (fun p => p.pick_count)).map
            (fun n : ℕ => (n : ℚ))
          = (pre.take (i + 1)).map (fun p => (p.pick_count : ℚ)) := by
        rw [List.map_map]; rfl
      rw [e1, h1, e2]
    rw [abcPass_getD t pre 0 i hlen, finishRow_abc, hmap, htake, zero_add]

/-- C5 witness: the amended threshold characterization instantiated on
the first row of the tie-break run. -/
theorem C5_witness :
    ((enrich c5skus c5slots c5orders).getD 0 arbRow).abc_class
      = abcClassOf
          (((enrich c5skus c5slots c5orders).map
              (fun r => (r.pick_count : ℚ))).sum)
          ((((enrich c5skus c5slots c5orders).take (0 + 1)).map
              (fun r => (r.pick_count : ℚ))).sum
            / (((enrich c5skus c5slots c5orders).map
                (fun r => (r.pick_count : ℚ))).sum) * 100) :=
  (C5_amended c5skus c5slots c5orders).2 0 (by decide)

/-- C6 (confirmed): every output row's weekly pick count equals the
number of order lines carrying its sku_id, and a SKU absent from the
order table gets exactly 0 (never a missing value: pick_count is a total
natural in the model, matching fillna(0) at app.py line 110). -/
theorem C6_pick_counts : ∀ (skus : List SkuRow) (slots : List SlotRow)
    (orders : List OrderRow), ∀ r ∈ enrich skus slots orders,
    r.pick_count = orders.countP (fun o => o.sku_id == r.sku.sku_id) ∧
    ((∀ o ∈ orders, o.sku_id ≠ r.sku.sku_id) → r.pick_count = 0) := by
  intro skus slots orders r h
  obtain ⟨s, hs, p, hp, total, c, rfl⟩ := mem_enrich h
  obtain ⟨hsku, hpick, hcase⟩ := mem_mergeSlotRow hp
  rw [finishRow_pick, finishRow_sku, hsku, hpick, lookupPick_sizeTable]
  refine ⟨rfl, ?_⟩
  intro hnone
  rw [List.countP_eq_zero]
  intro o ho hbeq
  exact hnone o ho (beq_iff_eq.mp hbeq)

/-- C6 witness: the pick-count equation on the order-free row of the
fixture run. -/
theorem C6_witness :
    ((enrich wSkus wSlots wOrders).getD 1 arbRow).pick_count
        = wOrders.countP (fun o => o.sku_id
            == ((enrich wSkus wSlots wOrders).getD 1 arbRow).sku.sku_id) ∧
    ((∀ o ∈ wOrders, o.sku_id
        ≠ ((enrich wSkus wSlots wOrders).getD 1 arbRow).sku.sku_id) →
      ((enrich wSkus wSlots wOrders).getD 1 arbRow).pick_count = 0) :=
  C6_pick_counts wSkus wSlots wOrders _ (getD_mem (by decide))

/-- C7 (claim as stated is false; counterexample): with temp_zone absent
from the warehouse file, the run aborts with a plain KeyError whose
message is just the missing column name: there is no SchemaError, and the
message does not name the source. -/
theorem C7_counterexample :
    load_comprehensive_data wSkuTable wOrderTable whNoZone
        = .error (.keyError "temp_zone") ∧
    errMessage (.keyError "temp_zone") = "temp_zone" ∧
    ¬ ("warehouse".data <:+: (errMessage (.keyError "temp_zone")).data) :=
  ⟨by decide, rfl, by decide⟩

/-- C7 (amended): a missing required column is fatal: the run returns an
error and produces no enriched rows, and a missing temp_zone column is
reported as KeyError temp_zone, which names the missing column but
neither a SchemaError class nor the offending source. -/
theorem C7_amended : ∀ (sku : SkuTable) (orders : OrderTable)
    (wh : SlotTable),
    (("order_timestamp" ∉ orders.cols ∨ "slot_id" ∉ wh.cols ∨
        "temp_zone" ∉ wh.cols ∨ "max_weight_kg" ∉ wh.cols ∨
        "aisle_id" ∉ wh.cols ∨ "current_slot" ∉ sku.cols ∨
        "sku_id" ∉ orders.cols ∨ "sku_id" ∉ sku.cols ∨
        "temp_req" ∉ sku.cols ∨ "weight_kg" ∉ sku.cols) →
      pipelineOk (load_comprehensive_data sku orders wh) = false) ∧
    ("order_timestamp" ∈ orders.cols → "slot_id" ∈ wh.cols →
      "temp_zone" ∉ wh.cols →
      load_comprehensive_data sku orders wh
        = .error (.keyError "temp_zone")) := by
  intro sku orders wh
  constructor
  · intro hdisj
    cases hb : pipelineOk (load_comprehensive_data sku orders wh) with
    | false => rfl
    | true =>
      have hall := load_ok_columns hb
      rcases hdisj with h | h | h | h | h | h | h | h | h | h
      · exact absurd hall.1 h
      · exact absurd hall.2.1 h
      · exact absurd hall.2.2.1 h
      · exact absurd hall.2.2.2.1 h
      · exact absurd hall.2.2.2.2.1 h
      · exact absurd hall.2.2.2.2.2.1 h
      · exact absurd hall.2.2.2.2.2.2.1 h
      · exact absurd hall.2.2.2.2.2.2.2.1 h
      · exact absurd hall.2.2.2.2.2.2.2.2.1 h
      · exact absurd hall.2.2.2.2.2.2.2.2.2 h
  · intro h1 h2 h3
    simp [load_comprehensive_data, requireCol, Bind.bind, Except.bind,
      h1, h2, h3]

/-- C7 witness: the amended behavior on a warehouse table missing
temp_zone. -/
theorem C7_witness :
    pipelineOk (load_comprehensive_data wSkuTable wOrderTable whNoZone)
        = false ∧
    load_comprehensive_data wSkuTable wOrderTable whNoZone
        = .error (.keyError "temp_zone") :=
  ⟨(C7_amended wSkuTable wOrderTable whNoZone).1 (by decide),
    (C7_amended wSkuTable wOrderTable whNoZone).2 (by decide) (by decide)
      (by decide)⟩

/-- C8 (confirmed): the pipeline is a pure function of its three input
tables: two runs on equal inputs produce equal results, including row
order and every derived column; the model carries no inter-run state. -/
theorem C8_deterministic : ∀ (s1 s2 : SkuTable) (o1 o2 : OrderTable)
    (w1 w2 : SlotTable), s1 = s2 → o1 = o2 → w1 = w2 →
    load_comprehensive_data s1 o1 w1 = load_comprehensive_data s2 o2 w2 := by
  intro s1 s2 o1 o2 w1 w2 hs ho hw
  rw [hs, ho, hw]

/-- C8 witness: two runs of the fixture tables agree. -/
theorem C8_witness :
    load_comprehensive_data wSkuTable wOrderTable wSlotTable
      = load_comprehensive_data wSkuTable wOrderTable wSlotTable :=
  C8_deterministic wSkuTable wSkuTable wOrderTable wOrderTable wSlotTable
    wSlotTable rfl rfl rfl

/-- C9 (confirmed): the weight-compliance computation is total in the
model (no exception path exists) and fails safe: a row whose slot is
unmatched, or whose weight is missing, gets weight_compliant = false (a
violation, not compliant-by-default). -/
theorem C9_weight_safe : ∀ (skus : List SkuRow) (slots : List SlotRow)
    (orders : List OrderRow), ∀ r ∈ enrich skus slots orders,
    ((∀ w ∈ slots, w.slot_id ≠ r.sku.current_slot) →
      r.weight_compliant = false) ∧
    (r.sku.weight_kg = none → r.weight_compliant = false) := by
  intro skus slots orders r h
  obtain ⟨s, hs, p, hp, total, c, rfl⟩ := mem_enrich h
  obtain ⟨hsku, hpick, hcase⟩ := mem_mergeSlotRow hp
  rw [finishRow_weight_compliant, finishRow_sku, hsku]
  constructor
  · intro hnone
    rcases hcase with ⟨hz, hmw, _⟩ | ⟨w, hw, hid, hz, hmw⟩
    · rw [hmw]
      cases hwk : s.weight_kg <;> rfl
    · exact absurd hid (hnone w hw)
  · intro hw0
    rw [hw0]
    cases hmk : p.max_weight_kg <;> rfl

/-- C9 witness: the unmatched-slot row of the fixture run is a weight
violation. -/
theorem C9_witness :
    ((enrich wSkus wSlots wOrders).getD 1 arbRow).weight_compliant
      = false :=
  (C9_weight_safe wSkus wSlots wOrders _ (getD_mem (by decide))).1
    (by decide)

/-- C10 (confirmed): a temp_req outside the three exact-capitalization
strings Frozen, Refrigerated, Ambient gets severity 0 even when the row
violates its zone, its priority score is its pick count alone, and it
ranks strictly below every recognized violation whose pick count is
within 1000 of its own. -/
theorem C10_unrecognized_temp : ∀ (skus : List SkuRow)
    (slots : List SlotRow) (orders : List OrderRow),
    ∀ r ∈ enrich skus slots orders,
    r.sku.temp_req ∉ (["Frozen", "Refrigerated", "Ambient"] : List String) →
    r.temp_risk_score = 0 ∧ r.priority_score = r.pick_count ∧
    ∀ b ∈ enrich skus slots orders, 1 ≤ b.temp_risk_score →
      r.pick_count < b.pick_count + 1000 →
      r.priority_score < b.priority_score := by
  intro skus slots orders r h hreq
  have hsev : r.temp_risk_score = 0 := by
    obtain ⟨s, hs, p, hp, total, c, rfl⟩ := mem_enrich h
    rw [finishRow_sku] at hreq
    rw [finishRow_risk]
    simp only [List.mem_cons, List.not_mem_nil, or_false, not_or] at hreq
    simp [tempRiskScore, beq_false_of_ne hreq.1, beq_false_of_ne hreq.2.1,
      beq_false_of_ne hreq.2.2]
  refine ⟨hsev, ?_, ?_⟩
  · rw [priority_eq h, hsev]
    omega
  · intro b hb hbsev hbpick
    rw [priority_eq h, priority_eq hb, hsev]
    omega

/-- C10 witness: the lower-case frozen row of the fixture run scores
below the severity-2 row. -/
theorem C10_witness :
    ((enrich wSkus wSlots wOrders).getD 1 arbRow).priority_score <
      ((enrich wSkus wSlots wOrders).headD arbRow).priority_score :=
  ((C10_unrecognized_temp wSkus wSlots wOrders _ (getD_mem (by decide))
      (by decide)).2.2) _ (headD_mem (by decide)) (by decide) (by decide)

end VelocityMart
